import Mathlib

/-
Verification of the USB descriptor decoding and reporting pipeline of
usbdevs.c (OpenBSD-derived usbdevs utility).  The definitions below are a
shallow embedding of the functions in src/usbdevs.c: the kernel ioctl
round-trips are modelled by an abstract query result, printf output is
modelled as a token list, and the chained-descriptor walker is modelled as
a fuel-indexed cursor loop so that non-termination of the C loop becomes
visible as fuel exhaustion at every fuel.
-/

namespace Usbdevs

/-- Constants from the external kernel header dev/usb/usb.h, which
usbdevs.c includes.  These are part of the fixed external interface. -/
def USB_MAX_DEVICES : Nat := 128

def USB_SPEED_LOW : Nat := 1

def USB_SPEED_FULL : Nat := 2

def USB_SPEED_HIGH : Nat := 3

def USB_SPEED_SUPER : Nat := 4

def UPS_CURRENT_CONNECT_STATUS : Nat := 0x0001

def UPS_PORT_ENABLED : Nat := 0x0002

def UPS_SUSPEND : Nat := 0x0004

def UPS_OVERCURRENT_INDICATOR : Nat := 0x0008

def UPS_PORT_L1 : Nat := 0x0020

def UPS_PORT_POWER : Nat := 0x0100

def UPS_PORT_POWER_SS : Nat := 0x0200

/-- Link-state field accessor from dev/usb/usb.h: bits 5 to 8 of the port
status word. -/
def UPS_PORT_LS_GET (x : Nat) : Nat := (x >>> 5) &&& 0xf

def UPS_PORT_LS_U3 : Nat := 0x03

def UC_BUS_POWERED : Nat := 0x80

def UC_SELF_POWERED : Nat := 0x40

def UC_REMOTE_WAKEUP : Nat := 0x20

def UC_POWER_FACTOR : Nat := 2

/-- Little-endian 16-bit read UGETW over two bytes. -/
def UGETW2 (b0 b1 : Nat) : Nat := b0 + 256 * b1

/-- Output token: each printf fragment of usbdevs.c becomes a string label
token, a numeric argument token, or an escaped byte-string token. -/
inductive Tok where
  | str : String → Tok
  | num : Nat → Tok
  | bytes : List Nat → Tok
deriving DecidableEq, Repr

/-- Result of one kernel device query (ioctl): a record, an ENXIO style
no-such-device failure, or any other failure. -/
inductive QueryResult (α : Type) where
  | found : α → QueryResult α
  | notFound : QueryResult α
  | error : QueryResult α
deriving DecidableEq, Repr

/-- Boolean test that a query found a device. -/
def QueryResult.isFoundB : QueryResult α → Bool
  | .found _ => true
  | _ => false

/-- Boolean test that a query failed with a non ENXIO error. -/
def QueryResult.isErrorB : QueryResult α → Bool
  | .error => true
  | _ => false

/-- Modelled from the spec: the libc strvis(3) escaping with VIS_CSTYLE
used on the vendor, product, release and serial fields is not part of this
repository (usbdevs.c only calls it), so the reversible deterministic
C-style backslash escaping the spec requires is modelled here.  A byte is
kept literal when printable, the backslash is doubled, the common control
characters get their C names, and every other byte becomes a backslash
followed by three octal digits. -/
def escapeByte (c : Nat) : List Nat :=
  if 0x20 ≤ c ∧ c ≤ 0x7E ∧ c ≠ 92 then [c]
  else if c = 92 then [92, 92]
  else if c = 10 then [92, 110]
  else if c = 9 then [92, 116]
  else if c = 13 then [92, 114]
  else if c = 8 then [92, 98]
  else if c = 7 then [92, 97]
  else if c = 11 then [92, 118]
  else if c = 12 then [92, 102]
  else [92, 48 + c / 64, 48 + c / 8 % 8, 48 + c % 8]

/-- Modelled from the spec: escaping of a whole byte string, one byte at a
time. -/
def escapeString (s : List Nat) : List Nat := s.flatMap escapeByte

/-- Modelled from the spec: the inverse unescape transform (strunvis).  It
parses literal bytes, doubled backslashes, named C escapes and three-digit
octal escapes, and rejects anything else. -/
def unescapeString : List Nat → Option (List Nat)
  | [] => some []
  | c :: rest =>
    if c = 92 then
      match rest with
      | [] => none
      | e :: t =>
        if e = 92 then (unescapeString t).map (92 :: ·)
        else if e = 110 then (unescapeString t).map (10 :: ·)
        else if e = 116 then (unescapeString t).map (9 :: ·)
        else if e = 114 then (unescapeString t).map (13 :: ·)
        else if e = 98 then (unescapeString t).map (8 :: ·)
        else if e = 97 then (unescapeString t).map (7 :: ·)
        else if e = 118 then (unescapeString t).map (11 :: ·)
        else if e = 102 then (unescapeString t).map (12 :: ·)
        else
          match t with
          | d2 :: d3 :: t2 =>
            if 48 ≤ e ∧ e ≤ 55 ∧ 48 ≤ d2 ∧ d2 ≤ 55 ∧ 48 ≤ d3 ∧ d3 ≤ 55 then
              (unescapeString t2).map (((e - 48) * 64 + (d2 - 48) * 8 + (d3 - 48)) :: ·)
            else none
          | _ => none
    else (unescapeString rest).map (c :: ·)

/-- Name used at the strvis call sites of dump_device. -/
def strvis (s : List Nat) : List Nat := escapeString s

/-- Fields of struct usb_device_info used by dump_device.  C strings are
modelled as the list of bytes before the terminating NUL; the fixed arrays
udi_devnames and udi_ports are modelled as lists; the UGETW and UGETDW
byte-order accessors of the C code are absorbed into the Nat fields. -/
structure usb_device_info where
  udi_bus : Nat
  udi_vendor : List Nat
  udi_product : List Nat
  udi_release : List Nat
  udi_serial : List Nat
  udi_vendorNo : Nat
  udi_productNo : Nat
  udi_releaseNo : Nat
  udi_class : Nat
  udi_subclass : Nat
  udi_protocol : Nat
  udi_config : Nat
  udi_speed : Nat
  udi_power : Nat
  udi_nports : Nat
  udi_devnames : List (List Nat)
  udi_ports : List Nat
deriving Repr

/-- Capacity nitems of the fixed port array udi_ports of struct
usb_device_info in dev/usb/usb.h. -/
def nitems_udi_ports : Nat := 16

/-- Labels of the SuperSpeed link-state switch at lines 194 to 231 of
usbdevs.c: twelve named states, and the values 12 to 15 of the four-bit
field print nothing (no default case). -/
def linkStateTokens (ls : Nat) : List String :=
  if ls = 0 then ["U0"]
  else if ls = 1 then ["U1"]
  else if ls = 2 then ["U2"]
  else if ls = 3 then ["U3"]
  else if ls = 4 then ["SS.disabled"]
  else if ls = 5 then ["Rx.detect"]
  else if ls = 6 then ["ss.inactive"]
  else if ls = 7 then ["polling"]
  else if ls = 8 then ["recovery"]
  else if ls = 9 then ["hot.reset"]
  else if ls = 10 then ["comp.mod"]
  else if ls = 11 then ["loopback"]
  else []

/-- Conditional status labels printed for one port by dump_device, lines
172 to 232 of usbdevs.c.  The branch on the device speed selects either
the pre-SuperSpeed power and L1 bits or the SuperSpeed power bit and the
twelve-valued link-state field. -/
def portStatusTokens (speed status : Nat) : List String :=
  (if status &&& UPS_CURRENT_CONNECT_STATUS ≠ 0 then ["connect"] else []) ++
  (if status &&& UPS_PORT_ENABLED ≠ 0 then ["enabled"] else []) ++
  (if status &&& UPS_SUSPEND ≠ 0 then ["supsend"] else []) ++
  (if status &&& UPS_OVERCURRENT_INDICATOR ≠ 0 then ["overcurrent"] else []) ++
  (if speed < USB_SPEED_SUPER then
    (if status &&& UPS_PORT_L1 ≠ 0 then ["l1"] else []) ++
    (if status &&& UPS_PORT_POWER ≠ 0 then ["power"] else [])
  else
    (if status &&& UPS_PORT_POWER_SS ≠ 0 then ["power"] else []) ++
    linkStateTokens (UPS_PORT_LS_GET status))

/-- Port indices iterated by the verbose port tier of dump_device: the C
loop bound is nports = MINIMUM(udi_nports, nitems(udi_ports)). -/
def portIndices (di : usb_device_info) : List Nat :=
  List.range (min di.udi_nports nitems_udi_ports)

/-- Tokens of one port line: port number, change word, status word, then
the conditional status labels. -/
def portLineTokens (di : usb_device_info) (port : Nat) : List Tok :=
  let w := di.udi_ports.getD port 0
  [Tok.num (port + 1), Tok.num (w >>> 16), Tok.num (w &&& 0xffff)] ++
  (portStatusTokens di.udi_speed (w &&& 0xffff)).map Tok.str

/-- Port lines rendered by the verbosity two tier of dump_device. -/
def portLines (di : usb_device_info) : List (List Tok) :=
  (portIndices di).map (portLineTokens di)

/-- Speed word of the verbose tier, switch on udi_speed at lines 114 to
129 (the constants are USB_SPEED_LOW, FULL, HIGH, SUPER; the default case
prints nothing). -/
def speedTokens (speed : Nat) : List Tok :=
  match speed with
  | 1 => [Tok.str "low speed"]
  | 2 => [Tok.str "full speed"]
  | 3 => [Tok.str "high speed"]
  | 4 => [Tok.str "super speed"]
  | _ => []

/-- Output of dump_device for a successfully queried device, lines 106 to
236 of usbdevs.c: mandatory summary line, verbose tier, driver lines, and
the verbosity two port tier. -/
def dump_device_tokens (verbose addr : Nat) (di : usb_device_info) : List Tok :=
  [Tok.str "addr", Tok.num addr, Tok.num di.udi_vendorNo, Tok.num di.udi_productNo,
   Tok.bytes (strvis di.udi_vendor), Tok.bytes (strvis di.udi_product),
   Tok.num di.udi_bus] ++
  (if verbose ≠ 0 then
    speedTokens di.udi_speed ++
    (if di.udi_power ≠ 0 then [Tok.str "power", Tok.num di.udi_power]
     else [Tok.str "self powered"]) ++
    (if di.udi_config ≠ 0 then [Tok.str "config", Tok.num di.udi_config]
     else [Tok.str "unconfigured"]) ++
    [Tok.str "rev", Tok.bytes (strvis di.udi_release), Tok.num di.udi_releaseNo,
     Tok.str "class", Tok.num di.udi_class, Tok.num di.udi_subclass,
     Tok.num di.udi_protocol] ++
    (if di.udi_serial ≠ [] then [Tok.str "iSerial", Tok.bytes (strvis di.udi_serial)]
     else [])
  else []) ++
  (if verbose ≠ 0 then
    (di.udi_devnames.filter (fun n => n ≠ [])).map (fun n => Tok.bytes n)
  else []) ++
  (if 1 < verbose then (portLines di).flatten else [])

/-- Model of dump_device, lines 89 to 237: the USB_DEVICEINFO query either
fails with ENXIO (silent return), fails otherwise (warn with the address
and return), or succeeds (mark the address done and print the report).
Returns the printed tokens, the warned addresses and the updated done
array. -/
def dump_device (verbose : Nat) (done : Nat → Bool) (addr : Nat)
    (q : QueryResult usb_device_info) : List Tok × List Nat × (Nat → Bool) :=
  match q with
  | .notFound => ([], [], done)
  | .error => ([], [addr], done)
  | .found di =>
    (dump_device_tokens verbose addr di, [],
     fun a => if a = addr then true else done a)

/-- Enumeration trace of one controller: the addresses queried, the
addresses for which a device report was printed, and the addresses for
which a warning was printed. -/
structure CtrlTrace where
  queried : List Nat
  reports : List Nat
  warnings : List Nat
deriving DecidableEq, Repr

/-- Trace of a single dump_device call: the ioctl is always issued, a
report is printed exactly on success, a warning exactly on a non ENXIO
failure. -/
def dump_device_trace (addr : Nat) (r : QueryResult usb_device_info) : CtrlTrace :=
  ⟨[addr],
   match r with | .found _ => [addr] | _ => [],
   match r with | .error => [addr] | _ => []⟩

/-- Update of the global done array performed by dump_device: the address
is marked only when the query succeeded. -/
def done_after (done : Nat → Bool) (addr : Nat)
    (r : QueryResult usb_device_info) : Nat → Bool :=
  match r with
  | .found _ => fun b => if b = addr then true else done b
  | _ => done

/-- Loop of dump_controller, lines 406 to 408: iterate n addresses
starting at a, skipping addresses already marked done, calling dump_device
on the rest and threading the done array through. -/
def dc_loop (q : Nat → QueryResult usb_device_info) :
    (Nat → Bool) → Nat → Nat → CtrlTrace
  | _, _, 0 => ⟨[], [], []⟩
  | done, a, n + 1 =>
    if done a then dc_loop q done (a + 1) n
    else
      let t := dump_device_trace a (q a)
      let rest := dc_loop q (done_after done a (q a)) (a + 1) n
      ⟨t.queried ++ rest.queried, t.reports ++ rest.reports,
       t.warnings ++ rest.warnings⟩

/-- Model of dump_controller, lines 395 to 409: reset the done array; a
nonzero target address is queried once directly; address zero iterates
addresses 1 to USB_MAX_DEVICES - 1 in ascending order. -/
def dump_controller (q : Nat → QueryResult usb_device_info)
    (addr : Nat) : CtrlTrace :=
  if addr ≠ 0 then dump_device_trace addr (q addr)
  else dc_loop q (fun _ => false) 1 (USB_MAX_DEVICES - 1)

/-- Fields of struct usb_device_ddesc used by print_device. -/
structure usb_device_ddesc where
  bMaxPacketSize : Nat
  bNumConfigurations : Nat
  iManufacturer : Nat
deriving DecidableEq, Repr

/-- Model of print_device, lines 239 to 256: ENXIO is silent, any other
failure warns with the address, success prints one line.  Returns the
printed tokens and the warned addresses. -/
def print_device (addr : Nat) (q : QueryResult usb_device_ddesc) :
    List Tok × List Nat :=
  match q with
  | .notFound => ([], [])
  | .error => ([], [addr])
  | .found d =>
    ([Tok.str "addr", Tok.num addr, Tok.num d.bMaxPacketSize,
      Tok.num d.bNumConfigurations, Tok.num d.iManufacturer], [])

/-- Fields of the configuration descriptor inside struct usb_device_cdesc
used by print_config. -/
structure usb_config_desc where
  bConfigurationValue : Nat
  bNumInterfaces : Nat
  bMaxPower : Nat
  bmAttributes : Nat
  wTotalLength : Nat
deriving DecidableEq, Repr

/-- Model of print_config, lines 258 to 289: ENXIO is silent, any other
failure warns with the address; both failures return 0.  On success the
summary and attribute lines are printed unless quiet, and wTotalLength is
returned in every mode.  Returns printed tokens, warned addresses and the
returned wTotalLength. -/
def print_config (addr : Nat) (quiet : Bool) (q : QueryResult usb_config_desc) :
    List Tok × List Nat × Nat :=
  match q with
  | .notFound => ([], [], 0)
  | .error => ([], [addr], 0)
  | .found cd =>
    ((if quiet then [] else
       [Tok.str "addr", Tok.num addr, Tok.num cd.bConfigurationValue,
        Tok.num cd.bNumInterfaces, Tok.num (cd.bMaxPower * UC_POWER_FACTOR),
        Tok.num cd.bmAttributes] ++
       (if cd.bmAttributes &&& UC_BUS_POWERED ≠ 0 then [Tok.str "bus-powered"] else []) ++
       (if cd.bmAttributes &&& UC_SELF_POWERED ≠ 0 then [Tok.str "self-powered"] else []) ++
       (if cd.bmAttributes &&& UC_REMOTE_WAKEUP ≠ 0 then [Tok.str "remote-wakeup"] else [])),
     [], cd.wTotalLength)

/-- Model of print_fconfig, lines 291 to 295: prints the byte at offset 5
of the sub-descriptor. -/
def print_fconfig (b5 : Nat) : List Tok := [Tok.str "config", Tok.num b5]

/-- Model of print_iface, lines 297 to 304: prints the bytes at offsets 2
to 7 of the sub-descriptor. -/
def print_iface (b2 b3 b4 b5 b6 b7 : Nat) : List Tok :=
  [Tok.str "iface", Tok.num b2, Tok.num b3, Tok.num b4, Tok.num b5,
   Tok.num b6, Tok.num b7]

/-- Endpoint address as rendered by print_endpt, line 310 of usbdevs.c:
the low two bits of the endpoint address byte. -/
def endpt_addr_rendered (b2 : Nat) : Nat := b2 &&& 0x3

/-- Endpoint direction as rendered by print_endpt, line 310 of usbdevs.c:
in when the low three bits of the endpoint address byte are nonzero,
otherwise out. -/
def endpt_dir_rendered (b2 : Nat) : String :=
  if b2 &&& 0x7 ≠ 0 then "in" else "out"

/-- Synchronization labels of the isochronous branch of print_endpt,
lines 319 to 332: the C switch compares the masked attributes byte against
1, 2 and 3 and has no default case, so any unmatched value prints
nothing. -/
def endpt_sync_tokens (b3 : Nat) : List Tok :=
  match b3 &&& 0xC with
  | 0 => [Tok.str "none"]
  | 1 => [Tok.str "async"]
  | 2 => [Tok.str "adaptive"]
  | 3 => [Tok.str "sync"]
  | _ => []

/-- Model of print_endpt, lines 306 to 344, over the bytes at offsets 2 to
6 of the endpoint sub-descriptor. -/
def print_endpt (b2 b3 b4 b5 b6 : Nat) : List Tok :=
  [Tok.str "endpt_addr", Tok.num (endpt_addr_rendered b2),
   Tok.str "dir", Tok.str (endpt_dir_rendered b2)] ++
  (match b3 &&& 0x3 with
   | 0 => [Tok.str "control"]
   | 1 => [Tok.str "isochronous", Tok.str "sync_type"] ++ endpt_sync_tokens b3
   | 2 => [Tok.str "bulk"]
   | 3 => [Tok.str "interrupt"]
   | _ => []) ++
  [Tok.str "max_packet", Tok.num (UGETW2 b4 b5),
   Tok.str "polling_interval", Tok.num b6]

/-- Model of print_unknown, lines 346 to 356: prints the tag byte at
offset 1 and then the first L bytes of the sub-descriptor, where L is its
own length byte. -/
def print_unknown (buf : List Nat) (off : Nat) : List Tok :=
  [Tok.str "unknown", Tok.num (buf.getD (off + 1) 0)] ++
  (List.range (buf.getD off 0)).map (fun i => Tok.num (buf.getD (off + i) 0))

/-- Byte offsets read while dispatching one sub-descriptor at cursor
position off: the walker reads the length byte at off and the tag byte at
off + 1, then the dispatched renderer reads its fixed offsets
(print_fconfig offset 5, print_iface offsets 2 to 7, print_endpt offsets
2 to 6, print_unknown offsets 0 to L - 1). -/
def subDescReads (buf : List Nat) (off : Nat) : List Nat :=
  off :: (off + 1) ::
  (match buf.getD (off + 1) 0 with
   | 2 => [off + 5]
   | 4 => [off + 2, off + 3, off + 4, off + 5, off + 6, off + 7]
   | 5 => [off + 2, off + 3, off + 4, off + 5, off + 6]
   | _ => (List.range (buf.getD off 0)).map (off + ·))

/-- Tokens produced while dispatching one sub-descriptor, switch at lines
377 to 391 (tags 2 configuration, 4 interface, 5 endpoint; tag 3 and the
default case fall to print_unknown). -/
def subDescTokens (buf : List Nat) (off : Nat) : List Tok :=
  match buf.getD (off + 1) 0 with
  | 2 => print_fconfig (buf.getD (off + 5) 0)
  | 4 => print_iface (buf.getD (off + 2) 0) (buf.getD (off + 3) 0)
      (buf.getD (off + 4) 0) (buf.getD (off + 5) 0) (buf.getD (off + 6) 0)
      (buf.getD (off + 7) 0)
  | 5 => print_endpt (buf.getD (off + 2) 0) (buf.getD (off + 3) 0)
      (buf.getD (off + 4) 0) (buf.getD (off + 5) 0) (buf.getD (off + 6) 0)
  | _ => print_unknown buf off

/-- Chained-descriptor walker of print_full, loop at lines 375 to 392:
starting at cursor 0, while the cursor is below the buffer length,
dispatch the sub-descriptor at the cursor and advance the cursor by the
length byte at the cursor.  The C loop has no other exit, so it is
modelled with explicit fuel: some gives the visited cursor offsets when
the loop exits, none means the fuel ran out, and a loop that returns none
at every fuel is the image of a non-terminating C loop. -/
def walk (buf : List Nat) : Nat → Nat → Option (List Nat)
  | 0, _ => none
  | fuel + 1, cur =>
    if cur < buf.length then
      match walk buf fuel (cur + buf.getD cur 0) with
      | some rest => some (cur :: rest)
      | none => none
    else some []

/-- Byte offsets read by the walker within the given fuel. -/
def walkReads (buf : List Nat) : Nat → Nat → List Nat
  | 0, _ => []
  | fuel + 1, cur =>
    if cur < buf.length then
      subDescReads buf cur ++ walkReads buf fuel (cur + buf.getD cur 0)
    else []

/-- Tokens printed by the walker within the given fuel. -/
def walkTokens (buf : List Nat) : Nat → Nat → List Tok
  | 0, _ => []
  | fuel + 1, cur =>
    if cur < buf.length then
      subDescTokens buf cur ++ walkTokens buf fuel (cur + buf.getD cur 0)
    else []

/-- Observable effects of one print_full call. -/
structure PrintFullOut where
  allocRequested : List Nat
  aborted : Bool
  fetchIssued : List Nat
  output : List Tok
  warnings : List Nat
deriving DecidableEq, Repr

/-- Model of print_full, lines 358 to 393: malloc of wtotlen bytes is
always requested first and its failure aborts the whole run (errx); then
the full-descriptor fetch of wtotlen bytes is issued; an ENXIO failure
returns silently, any other failure warns with the address; on success the
address line is printed and the walker runs over the fetched bytes. -/
def print_full (addr wtotlen : Nat) (allocOk : Bool)
    (fetch : QueryResult (List Nat)) (fuel : Nat) : PrintFullOut :=
  if allocOk = false then
    ⟨[wtotlen], true, [], [], []⟩
  else
    match fetch with
    | .notFound => ⟨[wtotlen], false, [wtotlen], [], []⟩
    | .error => ⟨[wtotlen], false, [wtotlen], [], [addr]⟩
    | .found bytes =>
      ⟨[wtotlen], false, [wtotlen],
       [Tok.str "addr", Tok.num addr] ++ walkTokens bytes fuel 0, []⟩

/-- Model of the single-address arm of full_dump, lines 456 to 463: a
quiet print_config obtains wTotalLength, then print_full is called with
that value. -/
def full_dump_trace (addr : Nat) (qc : QueryResult usb_config_desc)
    (allocOk : Bool) (fetch : QueryResult (List Nat)) (fuel : Nat) :
    PrintFullOut :=
  print_full addr (print_config addr true qc).2.2 allocOk fetch fuel

/-- C1: the claim says a zero sub-descriptor length byte terminates the
walk; in the code the cursor advances by the length byte, so a zero byte
leaves the cursor in place and the loop never exits: the walk is none for
every fuel.  This refutes the claim on the code (code bug: the walker
loops forever instead of stopping). -/
theorem walk_zero_length_stuck (buf : List Nat) (cur : Nat)
    (hcur : cur < buf.length) (h0 : buf.getD cur 0 = 0) :
    ∀ fuel, walk buf fuel cur = none := by
  intro fuel
  induction fuel with
  | zero => rfl
  | succ n ih =>
    unfold walk
    rw [if_pos hcur, h0, Nat.add_zero, ih]

/-- Witness for walk_zero_length_stuck at the concrete buffer with a
single zero byte. -/
theorem walk_zero_length_stuck_witness : walk [0] 5 0 = none :=
  walk_zero_length_stuck [0] 0 (by decide) (by decide) 5

/-- C2: the claim says the walker never reads a byte at offset N or
beyond; in the code the type tag at cursor + 1 is read unconditionally, so
the one-byte buffer 0x01 makes the walker read offset 1 = N, and the
two-byte buffer 0x0a 0xff makes print_unknown read offsets up to 9.  This
refutes the claim on the code (code bug: out-of-bounds reads). -/
theorem walk_reads_out_of_bounds :
    (1 ∈ walkReads [1] 1 0 ∧ List.length [(1 : Nat)] ≤ 1) ∧
    (9 ∈ walkReads [10, 255] 1 0 ∧ List.length [(10 : Nat), 255] ≤ 9) := by
  decide

/-- C3 counterexample: with a failed configuration decode (wTotalLength
returned as 0) full_dump still requests a zero-byte allocation and still
issues a zero-byte full-descriptor fetch, so the claimed short-circuit
does not exist in the code. -/
theorem full_dump_no_short_circuit :
    (full_dump_trace 1 .error true (.found []) 1).allocRequested = [0] ∧
    (full_dump_trace 1 .error true (.found []) 1).allocRequested ≠ [] ∧
    (full_dump_trace 1 .error true (.found []) 1).fetchIssued = [0] ∧
    (full_dump_trace 1 .error true (.found []) 1).fetchIssued ≠ [] := by
  decide

/-- C3 amended: if the quiet configuration decode returns wTotalLength 0,
full_dump still requests a zero-byte allocation and issues a zero-byte
fetch, and the subsequent walk over the empty buffer visits no
sub-descriptors. -/
theorem full_dump_zero_wtotlen (addr fuel : Nat)
    (qc : QueryResult usb_config_desc) (fetch : QueryResult (List Nat))
    (hw : (print_config addr true qc).2.2 = 0) :
    (full_dump_trace addr qc true fetch fuel).allocRequested = [0] ∧
    (full_dump_trace addr qc true fetch fuel).fetchIssued = [0] ∧
    walk [] (fuel + 1) 0 = some [] := by
  unfold full_dump_trace
  rw [hw]
  cases fetch <;> simp [print_full, walk]

/-- Witness for full_dump_zero_wtotlen at a concrete failed configuration
decode. -/
theorem full_dump_zero_wtotlen_witness :
    (full_dump_trace 1 .error true .notFound 0).allocRequested = [0] ∧
    (full_dump_trace 1 .error true .notFound 0).fetchIssued = [0] ∧
    walk [] (0 + 1) 0 = some [] :=
  full_dump_zero_wtotlen 1 0 .error .notFound (by decide)

/-- C4: the claim says each of the four synchronization field values of an
isochronous endpoint maps to its own label; in the code the switch masks
the attributes byte with 0xC (values 0, 4, 8, 12) but compares against 1,
2 and 3, so only the label none is reachable and the attribute bytes 0x05,
0x09 and 0x0D (sync field async, adaptive, sync) print no label at all.
This refutes the claim on the code (code bug: dead switch cases). -/
theorem endpt_sync_labels_unreachable :
    Tok.str "none" ∈ print_endpt 0 0x01 0 0 0 ∧
    Tok.str "sync_type" ∈ print_endpt 0 0x05 0 0 0 ∧
    Tok.str "async" ∉ print_endpt 0 0x05 0 0 0 ∧
    Tok.str "adaptive" ∉ print_endpt 0 0x09 0 0 0 ∧
    Tok.str "sync" ∉ print_endpt 0 0x0D 0 0 0 := by
  decide

/-- C5: the claim says the rendered direction is determined by the
direction bit of the endpoint address byte; in the code the direction is
rendered from the low three bits, so the address bytes 0x01 and 0x81,
which differ only in the direction bit 0x80, both render in, and 0x80
itself renders out.  This refutes the claim on the code (code bug: wrong
direction mask, and the endpoint number mask 0x3 instead of 0xF). -/
theorem endpt_dir_ignores_direction_bit :
    endpt_dir_rendered 0x01 = "in" ∧
    endpt_dir_rendered 0x81 = "in" ∧
    endpt_addr_rendered 0x01 = endpt_addr_rendered 0x81 ∧
    Nat.xor 0x01 0x81 = 0x80 ∧
    endpt_dir_rendered 0x80 = "out" := by
  decide

/-- C6: for every per-address query in every decode mode, an ENXIO
no-such-device failure prints nothing and warns nothing, any other query
failure warns with the address and returns normally, and among all failure
modes only the allocation failure of the full-decode buffer aborts the
run. -/
theorem error_taxonomy (verbose addr wtot fuel : Nat) (done : Nat → Bool)
    (fetch : QueryResult (List Nat)) :
    (dump_device verbose done addr .notFound).1 = [] ∧
    (dump_device verbose done addr .notFound).2.1 = [] ∧
    (dump_device verbose done addr .error).1 = [] ∧
    (dump_device verbose done addr .error).2.1 = [addr] ∧
    print_device addr .notFound = ([], []) ∧
    (print_device addr .error).2 = [addr] ∧
    print_config addr false .notFound = ([], [], 0) ∧
    (print_config addr false .error).2.1 = [addr] ∧
    (print_full addr wtot true .notFound fuel).output = [] ∧
    (print_full addr wtot true .notFound fuel).warnings = [] ∧
    (print_full addr wtot true .notFound fuel).aborted = false ∧
    (print_full addr wtot true .error fuel).warnings = [addr] ∧
    (print_full addr wtot true .error fuel).aborted = false ∧
    (print_full addr wtot false fetch fuel).aborted = true ∧
    (print_full addr wtot true fetch fuel).aborted = false := by
  cases fetch <;>
    simp [dump_device, print_device, print_config, print_full]

/-- C10: the verbosity two port tier renders exactly the minimum of the
device-reported port count and the fixed capacity of the udi_ports array,
and every port index used is below that capacity. -/
theorem port_lines_clamped (di : usb_device_info) :
    (portLines di).length = min di.udi_nports nitems_udi_ports ∧
    ∀ p ∈ portIndices di, p < nitems_udi_ports := by
  constructor
  · simp [portLines, portIndices]
  · intro p hp
    simp only [portIndices, List.mem_range] at hp
    omega

/-- Loop invariant of dump_controller: when no address from a upward is
marked done, the loop over n addresses starting at a queries exactly the
ascending range, reports exactly the found addresses and warns exactly the
error addresses. -/
theorem dc_loop_fresh (q : Nat → QueryResult usb_device_info) :
    ∀ (n a : Nat) (done : Nat → Bool), (∀ b, a ≤ b → done b = false) →
    dc_loop q done a n =
      ⟨List.range' a n,
       (List.range' a n).filter (fun b => (q b).isFoundB),
       (List.range' a n).filter (fun b => (q b).isErrorB)⟩ := by
  intro n
  induction n with
  | zero =>
    intro a done h
    rfl
  | succ n ih =>
    intro a done h
    have hda : done a = false := h a (Nat.le_refl a)
    have hinv : ∀ b, a + 1 ≤ b → done_after done a (q a) b = false := by
      intro b hb
      have hba : b ≠ a := by omega
      have hdb : done b = false := h b (by omega)
      cases q a with
      | found di => simp [done_after, hba, hdb]
      | notFound => simpa [done_after] using hdb
      | error => simpa [done_after] using hdb
    have hrest := ih (a + 1) (done_after done a (q a)) hinv
    rw [List.range'_succ]
    unfold dc_loop
    rw [hda]
    simp only [Bool.false_eq_true, if_false]
    rw [hrest]
    cases hq : q a with
    | found di =>
      simp [dump_device_trace, hq, QueryResult.isFoundB, QueryResult.isErrorB,
        List.filter_cons]
    | notFound =>
      simp [dump_device_trace, hq, QueryResult.isFoundB, QueryResult.isErrorB,
        List.filter_cons]
    | error =>
      simp [dump_device_trace, hq, QueryResult.isFoundB, QueryResult.isErrorB,
        List.filter_cons]

/-- C7: a nonzero target address is queried exactly once; target address
zero queries every address 1 to 127 exactly once in ascending order,
printing one report per found device and warning only for addresses whose
query failed with a non ENXIO error (absent addresses produce neither). -/
theorem dump_controller_scoping (q : Nat → QueryResult usb_device_info)
    (addr : Nat) (haddr : addr ≠ 0) :
    (dump_controller q addr).queried = [addr] ∧
    (dump_controller q 0).queried = List.range' 1 127 ∧
    (dump_controller q 0).reports =
      (List.range' 1 127).filter (fun b => (q b).isFoundB) ∧
    (dump_controller q 0).warnings =
      (List.range' 1 127).filter (fun b => (q b).isErrorB) := by
  have h0 := dc_loop_fresh q 127 1 (fun _ => false) (fun _ _ => rfl)
  have hc : dump_controller q 0 = dc_loop q (fun _ => false) 1 127 := by
    simp [dump_controller, USB_MAX_DEVICES]
  refine ⟨?_, ?_, ?_, ?_⟩
  · simp [dump_controller, haddr, dump_device_trace]
  · rw [hc, h0]
  · rw [hc, h0]
  · rw [hc, h0]

/-- Device record with all fields zero or empty, used to build concrete
query functions for witnesses. -/
def di_blank : usb_device_info :=
  ⟨0, [], [], [], [], 0, 0, 0, 0, 0, 0, 0, 0, 0, 0, [], []⟩

/-- Concrete controller with devices at addresses 3 and 7 only. -/
def q_three_seven : Nat → QueryResult usb_device_info :=
  fun a => if a = 3 ∨ a = 7 then .found di_blank else .notFound

/-- Witness for dump_controller_scoping at the controller with devices at
addresses 3 and 7 and target address 5. -/
theorem dump_controller_scoping_witness :
    (dump_controller q_three_seven 5).queried = [5] ∧
    (dump_controller q_three_seven 0).queried = List.range' 1 127 ∧
    (dump_controller q_three_seven 0).reports =
      (List.range' 1 127).filter (fun b => (q_three_seven b).isFoundB) ∧
    (dump_controller q_three_seven 0).warnings =
      (List.range' 1 127).filter (fun b => (q_three_seven b).isErrorB) :=
  dump_controller_scoping q_three_seven 5 (by decide)

/-- Link-state field value 3 occupies bits 5 to 8 of the status word with
bits 7 and 8 clear, so the pre-SuperSpeed power bit 0x100 (bit 8) is
necessarily clear in any such status word. -/
theorem ls_field_three_power_bit_clear (s : Nat)
    (h : UPS_PORT_LS_GET s = UPS_PORT_LS_U3) : s &&& UPS_PORT_POWER = 0 := by
  have h5 : s >>> 5 = s / 32 := by
    have := Nat.shiftRight_eq_div_pow s 5
    norm_num at this
    exact this
  have h15 : (s >>> 5) &&& 0xf = (s >>> 5) % 16 := by
    have := Nat.and_pow_two_sub_one_eq_mod (s >>> 5) 4
    norm_num at this
    exact this
  have hmod : s / 32 % 16 = 3 := by
    have hh := h
    unfold UPS_PORT_LS_GET UPS_PORT_LS_U3 at hh
    rw [h15, h5] at hh
    exact hh
  have hbit : s.testBit 8 = false := by
    have hd : s / 256 % 2 = 0 := by omega
    rw [Nat.testBit_to_div_mod]
    norm_num [hd]
  show s &&& 256 = 0
  apply Nat.eq_of_testBit_eq
  intro i
  rw [Nat.testBit_and, Nat.zero_testBit]
  by_cases hi : i = 8
  · subst hi
    simp [hbit]
  · have h2 : (256 : Nat).testBit i = false := by
      have := Nat.testBit_two_pow_of_ne (n := 8) (m := i) (fun hc => hi hc.symm)
      norm_num at this
      exact this
    simp [h2]

/-- C8: a port status word with the SuperSpeed power bit set and
link-state field 3 renders the power and U3 labels under a SuperSpeed
device; the same raw status word rendered for a device below SuperSpeed
renders neither label, because the pre-SuperSpeed branch decodes the
power and L1 bits instead of the link-state field and bit 8 of the word
is necessarily clear. -/
theorem speed_dependent_port_decode (status sspd pspd : Nat)
    (hpow : status &&& UPS_PORT_POWER_SS ≠ 0)
    (hls : UPS_PORT_LS_GET status = UPS_PORT_LS_U3)
    (hss : USB_SPEED_SUPER ≤ sspd)
    (hpre : pspd < USB_SPEED_SUPER) :
    "power" ∈ portStatusTokens sspd status ∧
    "U3" ∈ portStatusTokens sspd status ∧
    "power" ∉ portStatusTokens pspd status ∧
    "U3" ∉ portStatusTokens pspd status := by
  have hnp : status &&& UPS_PORT_POWER = 0 :=
    ls_field_three_power_bit_clear status hls
  have hnlt : ¬ sspd < USB_SPEED_SUPER := Nat.not_lt.mpr hss
  refine ⟨?_, ?_, ?_, ?_⟩
  · unfold portStatusTokens
    rw [if_neg hnlt, if_pos hpow]
    simp [List.mem_append]
  · unfold portStatusTokens
    rw [if_neg hnlt, hls]
    simp [linkStateTokens, UPS_PORT_LS_U3, List.mem_append]
  · unfold portStatusTokens
    rw [if_pos hpre]
    simp only [hnp, ne_eq, not_true_eq_false, not_false_eq_true, if_neg,
      List.mem_append, List.append_nil]
    split_ifs <;> simp_all
  · unfold portStatusTokens
    rw [if_pos hpre]
    split_ifs <;> decide

/-- Witness for speed_dependent_port_decode at status 0x260 (SuperSpeed
power bit set, link-state field 3), SuperSpeed device speed 4, high speed
device speed 3. -/
theorem speed_dependent_port_decode_witness :
    "power" ∈ portStatusTokens 4 0x260 ∧
    "U3" ∈ portStatusTokens 4 0x260 ∧
    "power" ∉ portStatusTokens 3 0x260 ∧
    "U3" ∉ portStatusTokens 3 0x260 :=
  speed_dependent_port_decode 0x260 4 3 (by decide) (by decide)
    (by decide) (by decide)

/-- Unescaping a literal byte: a leading byte that is not a backslash is
taken verbatim. -/
theorem unescape_cons_lit (c : Nat) (hc : c ≠ 92) (l : List Nat) :
    unescapeString (c :: l) = (unescapeString l).map (c :: ·) := by
  rw [unescapeString.eq_def]
  simp [hc]

/-- Unescaping a named escape: each of the eight named escape pairs
decodes to its byte. -/
theorem unescape_named (e c : Nat) (l : List Nat)
    (h : (e, c) ∈ [(92, 92), (110, 10), (116, 9), (114, 13), (98, 8),
      (97, 7), (118, 11), (102, 12)]) :
    unescapeString (92 :: e :: l) = (unescapeString l).map (c :: ·) := by
  fin_cases h <;> (rw [unescapeString.eq_def]; norm_num)

/-- Unescaping a three-digit octal escape. -/
theorem unescape_octal (d1 d2 d3 : Nat) (l : List Nat)
    (h1 : 48 ≤ d1) (h2 : d1 ≤ 55) (h3 : 48 ≤ d2) (h4 : d2 ≤ 55)
    (h5 : 48 ≤ d3) (h6 : d3 ≤ 55) :
    unescapeString (92 :: d1 :: d2 :: d3 :: l) =
      (unescapeString l).map
        (((d1 - 48) * 64 + (d2 - 48) * 8 + (d3 - 48)) :: ·) := by
  have n1 : d1 ≠ 92 := by omega
  have n2 : d1 ≠ 110 := by omega
  have n3 : d1 ≠ 116 := by omega
  have n4 : d1 ≠ 114 := by omega
  have n5 : d1 ≠ 98 := by omega
  have n6 : d1 ≠ 97 := by omega
  have n7 : d1 ≠ 118 := by omega
  have n8 : d1 ≠ 102 := by omega
  rw [unescapeString.eq_def]
  simp [n1, n2, n3, n4, n5, n6, n7, n8, h1, h2, h3, h4, h5, h6]

/-- Every byte emitted by the escaping of one input byte below 256 is
printable ASCII. -/
theorem escapeByte_printable (c : Nat) (hc : c < 256) :
    ∀ b ∈ escapeByte c, 0x20 ≤ b ∧ b ≤ 0x7E := by
  intro b hb
  unfold escapeByte at hb
  split_ifs at hb <;> simp at hb <;> omega

/-- Unescaping inverts the escaping of one byte below 256, whatever
escaped text follows. -/
theorem unescape_escapeByte (c : Nat) (hc : c < 256) (l : List Nat) :
    unescapeString (escapeByte c ++ l) = (unescapeString l).map (c :: ·) := by
  unfold escapeByte
  split_ifs with p1 p2 p3 p4 p5 p6 p7 p8 p9
  · exact unescape_cons_lit c p1.2.2 l
  · rw [p2]; exact unescape_named 92 92 l (by decide)
  · rw [p3]; exact unescape_named 110 10 l (by decide)
  · rw [p4]; exact unescape_named 116 9 l (by decide)
  · rw [p5]; exact unescape_named 114 13 l (by decide)
  · rw [p6]; exact unescape_named 98 8 l (by decide)
  · rw [p7]; exact unescape_named 97 7 l (by decide)
  · rw [p8]; exact unescape_named 118 11 l (by decide)
  · rw [p9]; exact unescape_named 102 12 l (by decide)
  · have ho := unescape_octal (48 + c / 64) (48 + c / 8 % 8) (48 + c % 8) l
      (by omega) (by omega) (by omega) (by omega) (by omega) (by omega)
    simp only [List.cons_append, List.nil_append] at ho ⊢
    rw [ho]
    have hv : (48 + c / 64 - 48) * 64 + (48 + c / 8 % 8 - 48) * 8 +
        (48 + c % 8 - 48) = c := by omega
    rw [hv]

/-- Every byte of an escaped string is printable ASCII: no raw control
bytes survive the escaping. -/
theorem escapeString_printable (s : List Nat) (h : ∀ c ∈ s, c < 256) :
    ∀ b ∈ escapeString s, 0x20 ≤ b ∧ b ≤ 0x7E := by
  intro b hb
  simp only [escapeString, List.mem_flatMap] at hb
  obtain ⟨c, hcs, hbc⟩ := hb
  exact escapeByte_printable c (h c hcs) b hbc

/-- Unescaping inverts the escaping of any byte string. -/
theorem unescape_escapeString (s : List Nat) (h : ∀ c ∈ s, c < 256) :
    unescapeString (escapeString s) = some s := by
  induction s with
  | nil => rfl
  | cons c t ih =>
    have hc : c < 256 := h c (List.mem_cons_self c t)
    have ht : ∀ x ∈ t, x < 256 := fun x hx => h x (List.mem_cons_of_mem c hx)
    calc unescapeString (escapeString (c :: t))
        = unescapeString (escapeByte c ++ escapeString t) := by
          simp [escapeString]
      _ = (unescapeString (escapeString t)).map (c :: ·) :=
          unescape_escapeByte c hc _
      _ = (some t).map (c :: ·) := by rw [ih ht]
      _ = some (c :: t) := rfl

/-- C9: the escaping applied to the device-supplied string fields emits no
raw control bytes (every output byte is printable ASCII) and the inverse
unescape recovers the original byte string exactly. -/
theorem escape_roundtrip (s : List Nat) (h : ∀ c ∈ s, c < 256) :
    (∀ b ∈ escapeString s, 0x20 ≤ b ∧ b ≤ 0x7E) ∧
    unescapeString (escapeString s) = some s :=
  ⟨escapeString_printable s h, unescape_escapeString s h⟩

/-- Witness for escape_roundtrip at a concrete string containing the
control bytes 10 and 1 and the non ASCII byte 200. -/
theorem escape_roundtrip_witness :
    (∀ b ∈ escapeString [72, 10, 1, 200], 0x20 ≤ b ∧ b ≤ 0x7E) ∧
    unescapeString (escapeString [72, 10, 1, 200]) = some [72, 10, 1, 200] :=
  escape_roundtrip [72, 10, 1, 200] (by decide)

end Usbdevs
